import Mathlib

/-!
Shallow embedding of the similarity-comparison subsystem of the
`ilovehash.dev` repository and a verification of its specified properties.

Source files embedded:
- `src/apps/web/src/lib/hash/similarity.ts` (the Similarity Comparator)
- `src/apps/web/src/lib/hash-metadata.ts` (the Algorithm Registry and
  category slug helpers)

Modelling conventions:
- JavaScript `number` results that are always integers are modelled by `Int`;
  similarity scores (which use `/`) are modelled by `ℚ`.
- A JavaScript function returning `T | null` becomes `Option T`; `null` is
  `none`.
- The external `@ilovehash/sdk` hashing engine is out of scope per the spec;
  its four functions consumed by the comparator are abstracted as a record of
  total functions (`Sdk`) that the comparator is parameterised over.
- Strings the code manipulates are hex-ish ASCII strings, for which the Lean
  `String.length`/char indexing agrees with the JavaScript UTF-16 view.
- `compareSimilarityHashes` is `async` in the source but performs no
  suspension; the promise boundary is dropped and it is modelled as a pure
  function.
-/

namespace ILoveHash

/-- Result record of a comparison: `{ distance?: number; similarity?: number }`
from `similarity.ts`.  Optional fields become `Option`. -/
structure ComparisonResult where
  distance : Option Int
  similarity : Option ℚ
deriving DecidableEq

/-- The four `@ilovehash/sdk` functions the comparator calls.  They are
external to the repository (the "hashing engine" of the spec), so the embedding is
parameterised over them as total functions. -/
structure Sdk where
  simhashHammingDistance : String → String → Int
  simhashSimilarity : String → String → ℚ
  minhashJaccard : List Nat → List Nat → ℚ
  nilsimsaCompare : String → String → Int

/-- Characters matched by the JavaScript regex class `\s` and by `String.trim`. -/
def jsWhitespace (c : Char) : Bool :=
  c = ' ' || c = '\t' || c = '\n' || c.val = 0x0b || c.val = 0x0c || c = '\r' ||
  c.val = 0xa0 || c.val = 0x1680 || (0x2000 ≤ c.val && c.val ≤ 0x200a) ||
  c.val = 0x2028 || c.val = 0x2029 || c.val = 0x202f || c.val = 0x205f ||
  c.val = 0x3000 || c.val = 0xfeff

/-- Value of a single hexadecimal digit (upper or lower case), `none` for any
other character — exactly the characters JavaScript `parseInt(·, 16)` accepts
as digits. -/
def hexDigitVal (c : Char) : Option Nat :=
  let n := c.toNat
  if 48 ≤ n ∧ n ≤ 57 then some (n - 48)
  else if 97 ≤ n ∧ n ≤ 102 then some (n - 97 + 10)
  else if 65 ≤ n ∧ n ≤ 70 then some (n - 65 + 10)
  else none

/-- Models `parseInt(c, 16)` on a single character, composed with the bitwise
coercion `ToInt32(NaN) = 0` that the `^` and `&` operators of
`hammingDistance` apply: a non-hex character contributes the value `0`. -/
def nibbleVal (c : Char) : Nat :=
  (hexDigitVal c).getD 0

/-- Models `hex[i] || '0'`: JavaScript string indexing yields the character
when in bounds (every one-character string is truthy) and `undefined` —
replaced by the digit zero character — out of bounds. -/
def jsCharAt (s : String) (i : Nat) : Char :=
  (s.data.get? i).getD '0'

/-- The popcount-of-low-4-bits expression
`(xor & 1) + ((xor >> 1) & 1) + ((xor >> 2) & 1) + ((xor >> 3) & 1)`. -/
def popcount4 (x : Nat) : Nat :=
  (x &&& 1) + ((x >>> 1) &&& 1) + ((x >>> 2) &&& 1) + ((x >>> 3) &&& 1)

/-- Embedding of `hammingDistance` from `similarity.ts`: returns `-1` when lengths differ,
otherwise sums, over every character position, the popcount of the XOR of the
two nibble values (non-hex characters parse to `NaN` which the bitwise
operations coerce to `0`). -/
def hammingDistance (hex1 hex2 : String) : Int :=
  if hex1.length ≠ hex2.length then -1
  else
    ((List.range hex1.length).foldl
      (fun d i => d + popcount4 (nibbleVal (jsCharAt hex1 i) ^^^ nibbleVal (jsCharAt hex2 i)))
      0 : Nat)

/-- Embedding of `compareSimHash`: delegates both numbers to the SDK. -/
def compareSimHash (sdk : Sdk) (hash1 hash2 : String) : ComparisonResult :=
  ⟨some (sdk.simhashHammingDistance hash1 hash2), some (sdk.simhashSimilarity hash1 hash2)⟩

/-- Embedding of `compareNilsimsa`: the SDK correlation score `s ∈ [-128, 128]` is
normalised as `similarity = (s + 128) / 256` and `distance = 128 - s`. -/
def compareNilsimsa (sdk : Sdk) (hash1 hash2 : String) : ComparisonResult :=
  let compareResult := sdk.nilsimsaCompare hash1 hash2
  ⟨some (128 - compareResult), some (((compareResult : ℚ) + 128) / 256)⟩

/-- JavaScript `parseInt(s, 16)`: skip leading whitespace, read an optional
sign, drop an optional `0x`/`0X` prefix, then take the longest prefix of hex
digits; `NaN` (here `none`) when that prefix is empty. -/
def jsParseInt16 (s : String) : Option Int :=
  let cs := s.data.dropWhile jsWhitespace
  let signed : Int × List Char :=
    match cs with
    | '-' :: rest => (-1, rest)
    | '+' :: rest => (1, rest)
    | _ => (1, cs)
  let body : List Char :=
    match signed.2 with
    | '0' :: 'x' :: rest => rest
    | '0' :: 'X' :: rest => rest
    | _ => signed.2
  let digits := body.takeWhile (fun c => (hexDigitVal c).isSome)
  if digits.isEmpty then none
  else some (signed.1 * (digits.foldl (fun a c => a * 16 + (hexDigitVal c).getD 0) 0 : Nat))

/-- Storing a JavaScript number into a `Uint32Array` slot: `ToUint32`, with
`NaN ↦ 0`. -/
def toUint32 (v : Option Int) : Nat :=
  match v with
  | none => 0
  | some v => (v % (2 ^ 32 : Int)).toNat

/-- Models `hex.slice(a, b)` for `0 ≤ a ≤ b` within bounds: characters `[a, b)`. -/
def jsSlice (s : String) (a b : Nat) : String :=
  String.mk ((s.data.drop a).take (b - a))

/-- Embedding of `parseMinHashSignature` from `similarity.ts`: `null` unless the length is
a multiple of 8, otherwise one `Uint32Array` element per 8-character slice. -/
def parseMinHashSignature (hex : String) : Option (List Nat) :=
  if hex.length % 8 ≠ 0 then none
  else
    some ((List.range (hex.length / 8)).map
      (fun i => toUint32 (jsParseInt16 (jsSlice hex (i * 8) ((i + 1) * 8)))))

/-- Embedding of `compareMinHash`: parse both signatures; only when both
parses succeed is the SDK Jaccard estimate returned, otherwise `null`.  (The
`try`/`catch` of the source has no remaining throwing path in this total
model.) -/
def compareMinHash (sdk : Sdk) (hash1 hash2 : String) : Option ComparisonResult :=
  match parseMinHashSignature hash1, parseMinHashSignature hash2 with
  | some sig1, some sig2 => some ⟨none, some (sdk.minhashJaccard sig1 sig2)⟩
  | _, _ => none

/-- Embedding of `compareSimilarityHashes`: the dispatch `switch` over the
algorithm id, written as the equivalent equality-test chain.
The `imatch` case and the `default` case both fall back to the generic
Hamming distance, returning `{ distance }` with no similarity. -/
def compareSimilarityHashes (sdk : Sdk) (algorithm hash1 hash2 : String) :
    Option ComparisonResult :=
  if algorithm = "simhash" then some (compareSimHash sdk hash1 hash2)
  else if algorithm = "minhash" ∨ algorithm = "bbitminhash" ∨ algorithm = "superminhash" then
    compareMinHash sdk hash1 hash2
  else if algorithm = "nilsimsa" then some (compareNilsimsa sdk hash1 hash2)
  else if algorithm = "imatch" then some ⟨some (hammingDistance hash1 hash2), none⟩
  else some ⟨some (hammingDistance hash1 hash2), none⟩

/-- A concrete SDK instance (all functions constantly zero), used only to
instantiate theorems at concrete inputs. -/
def trivialSdk : Sdk :=
  ⟨fun _ _ => 0, fun _ _ => 0, fun _ _ => 0, fun _ _ => 0⟩

/-- An SDK whose Nilsimsa correlation is the constant `s`, to exercise the
normalisation at chosen raw scores. -/
def constNilsimsaSdk (s : Int) : Sdk :=
  ⟨fun _ _ => 0, fun _ _ => 0, fun _ _ => 0, fun _ _ => s⟩

end ILoveHash

namespace ILoveHash

/-!
Embedding of `src/apps/web/src/lib/hash-metadata.ts`.

Each registry entry carries many presentation-only fields (display name,
description, output length, UI hints, parameter schemas).  The claims touch
only `id` (the object key), `category` and `supportsComparison`, so the
embedding projects each descriptor to those; `supportsComparison` is an
optional boolean in the source, absent meaning `false`.  The object literal
becomes a list in source order, which is also the key-iteration order
JavaScript guarantees for these string keys.
-/

/-- The claim-relevant projection of one `HashAlgorithm` descriptor. -/
structure AlgEntry where
  id : String
  category : String
  supportsComparison : Bool
deriving DecidableEq

/-- Catalog block 1 of 5 (entries 1-20 of `RAW_HASH_ALGORITHMS`, in source order; split only to keep list
elaboration cheap). -/
def rawHashAlgorithmsBlock1 : List AlgEntry := [
  ⟨"md5", "Cryptographic", false⟩,
  ⟨"sha1", "Cryptographic", false⟩,
  ⟨"sha224", "SHA-2", false⟩,
  ⟨"sha256", "SHA-2", false⟩,
  ⟨"sha384", "SHA-2", false⟩,
  ⟨"sha512", "SHA-2", false⟩,
  ⟨"sha512-224", "SHA-2", false⟩,
  ⟨"sha512-256", "SHA-2", false⟩,
  ⟨"ripemd160", "Cryptographic", false⟩,
  ⟨"sha3-224", "SHA-3", false⟩,
  ⟨"sha3-256", "SHA-3", false⟩,
  ⟨"sha3-384", "SHA-3", false⟩,
  ⟨"sha3-512", "SHA-3", false⟩,
  ⟨"keccak-224", "Cryptographic", false⟩,
  ⟨"keccak-256", "Cryptographic", false⟩,
  ⟨"keccak-384", "Cryptographic", false⟩,
  ⟨"keccak-512", "Cryptographic", false⟩,
  ⟨"shake128", "SHAKE", false⟩,
  ⟨"shake256", "SHAKE", false⟩,
  ⟨"blake2b512", "BLAKE2", false⟩
]

/-- Catalog block 2 of 5 (entries 21-40 of `RAW_HASH_ALGORITHMS`, in source order; split only to keep list
elaboration cheap). -/
def rawHashAlgorithmsBlock2 : List AlgEntry := [
  ⟨"blake2s256", "BLAKE2", false⟩,
  ⟨"blake1-224", "Cryptographic", false⟩,
  ⟨"blake1-256", "Cryptographic", false⟩,
  ⟨"blake1-384", "Cryptographic", false⟩,
  ⟨"blake1-512", "Cryptographic", false⟩,
  ⟨"murmurhash", "Non-cryptographic", false⟩,
  ⟨"djb2", "Non-cryptographic", false⟩,
  ⟨"sdbm", "Non-cryptographic", false⟩,
  ⟨"fnv-1", "Non-cryptographic", false⟩,
  ⟨"fnv-1a", "Non-cryptographic", false⟩,
  ⟨"crc-32", "Checksum", false⟩,
  ⟨"adler32", "Checksum", false⟩,
  ⟨"crc-16", "Checksum", false⟩,
  ⟨"crc-8", "Checksum", false⟩,
  ⟨"crc-64", "Checksum", false⟩,
  ⟨"blake3", "Modern", false⟩,
  ⟨"cshake128", "Modern", false⟩,
  ⟨"cshake256", "Modern", false⟩,
  ⟨"turboshake128", "Modern", false⟩,
  ⟨"turboshake256", "Modern", false⟩
]

/-- Catalog block 3 of 5 (entries 41-60 of `RAW_HASH_ALGORITHMS`, in source order; split only to keep list
elaboration cheap). -/
def rawHashAlgorithmsBlock3 : List AlgEntry := [
  ⟨"tuplehash256", "Modern", false⟩,
  ⟨"parallelhash256", "Modern", false⟩,
  ⟨"kt128", "Modern", false⟩,
  ⟨"kt256", "Modern", false⟩,
  ⟨"simhash", "Similarity", true⟩,
  ⟨"minhash", "Similarity", true⟩,
  ⟨"bbitminhash", "Similarity", true⟩,
  ⟨"superminhash", "Similarity", true⟩,
  ⟨"nilsimsa", "Similarity", true⟩,
  ⟨"imatch", "Similarity", true⟩,
  ⟨"jenkins-one-at-a-time", "Non-cryptographic", false⟩,
  ⟨"pearson", "Non-cryptographic", false⟩,
  ⟨"bernstein", "Non-cryptographic", false⟩,
  ⟨"elf-hash", "Non-cryptographic", false⟩,
  ⟨"internet-checksum", "Checksum", false⟩,
  ⟨"fletcher-4", "Checksum", false⟩,
  ⟨"fletcher-8", "Checksum", false⟩,
  ⟨"fletcher-16", "Checksum", false⟩,
  ⟨"fletcher-32", "Checksum", false⟩,
  ⟨"zobrist", "Non-cryptographic", false⟩
]

/-- Catalog block 4 of 5 (entries 61-80 of `RAW_HASH_ALGORITHMS`, in source order; split only to keep list
elaboration cheap). -/
def rawHashAlgorithmsBlock4 : List AlgEntry := [
  ⟨"tabulation", "Non-cryptographic", false⟩,
  ⟨"argon2i", "Password", false⟩,
  ⟨"argon2d", "Password", false⟩,
  ⟨"argon2id", "Password", false⟩,
  ⟨"has160", "Cryptographic", false⟩,
  ⟨"gost", "Cryptographic", false⟩,
  ⟨"streebog", "Cryptographic", false⟩,
  ⟨"luhn", "Checksum", false⟩,
  ⟨"verhoeff", "Checksum", false⟩,
  ⟨"damm", "Checksum", false⟩,
  ⟨"rs-hash", "Non-cryptographic", false⟩,
  ⟨"js-hash", "Non-cryptographic", false⟩,
  ⟨"bkdr-hash", "Non-cryptographic", false⟩,
  ⟨"dek-hash", "Non-cryptographic", false⟩,
  ⟨"ap-hash", "Non-cryptographic", false⟩,
  ⟨"murmurhash128", "Non-cryptographic", false⟩,
  ⟨"fnv-1-64", "Non-cryptographic", false⟩,
  ⟨"fnv-1a-64", "Non-cryptographic", false⟩,
  ⟨"xxhash32", "Non-cryptographic", false⟩,
  ⟨"xxhash64", "Non-cryptographic", false⟩
]

/-- Catalog block 5 of 5 (entries 81-100 of `RAW_HASH_ALGORITHMS`, in source order; split only to keep list
elaboration cheap). -/
def rawHashAlgorithmsBlock5 : List AlgEntry := [
  ⟨"xxhash128", "Non-cryptographic", false⟩,
  ⟨"cityhash", "Non-cryptographic", false⟩,
  ⟨"farmhash", "Non-cryptographic", false⟩,
  ⟨"metrohash", "Non-cryptographic", false⟩,
  ⟨"t1ha", "Non-cryptographic", false⟩,
  ⟨"highwayhash", "Modern", false⟩,
  ⟨"siphash", "Modern", false⟩,
  ⟨"poly1305", "Modern", false⟩,
  ⟨"cmac", "Modern", false⟩,
  ⟨"scrypt", "Password", false⟩,
  ⟨"pbkdf2", "Password", false⟩,
  ⟨"hmac", "Modern", false⟩,
  ⟨"hkdf", "Modern", false⟩,
  ⟨"cubehash", "Modern", false⟩,
  ⟨"echo", "Modern", false⟩,
  ⟨"skein", "Modern", false⟩,
  ⟨"blue-midnight-wish", "Modern", false⟩,
  ⟨"grøstl", "Modern", false⟩,
  ⟨"md2", "Cryptographic", false⟩,
  ⟨"md4", "Cryptographic", false⟩
]

/-- Embedding of `RAW_HASH_ALGORITHMS`: the full 100-entry catalog, in source order. -/
def RAW_HASH_ALGORITHMS : List AlgEntry :=
  rawHashAlgorithmsBlock1 ++ rawHashAlgorithmsBlock2 ++ rawHashAlgorithmsBlock3 ++
    rawHashAlgorithmsBlock4 ++ rawHashAlgorithmsBlock5

/-- Embedding of `HASH_ALGORITHMS`: maps each raw entry, adding only the presentation-only
`demo` flag; ids, categories and `supportsComparison` pass through unchanged,
so on the embedded projection it is the raw catalog itself. -/
def HASH_ALGORITHMS : List AlgEntry := RAW_HASH_ALGORITHMS

/-- Embedding of `getAlgorithmsByCategory`: group ids by category.  JavaScript object keys
appear in first-insertion order, so the result is an association list whose
keys are the categories in order of first appearance. -/
def getAlgorithmsByCategory : List (String × List String) :=
  HASH_ALGORITHMS.foldl
    (fun result e =>
      if result.any (fun p => p.1 = e.category) then
        result.map (fun p => if p.1 = e.category then (p.1, p.2 ++ [e.id]) else p)
      else result ++ [(e.category, [e.id])])
    []

/-- Embedding of `ALL_CATEGORY_TITLES = Object.keys(getAlgorithmsByCategory())`. -/
def ALL_CATEGORY_TITLES : List String :=
  getAlgorithmsByCategory.map Prod.fst

/-- Models `replace(/X+/g, r)` for a character-class regex `X`: every maximal run of
characters satisfying `p` is replaced by the single character `r`. -/
def collapseRuns (p : Char → Bool) (r : Char) : List Char → List Char
  | [] => []
  | [c] => if p c then [r] else [c]
  | c :: d :: rest =>
    if p c then
      if p d then collapseRuns p r (d :: rest)
      else r :: collapseRuns p r (d :: rest)
    else c :: collapseRuns p r (d :: rest)

/-- JavaScript `String.trim`: strip leading and trailing whitespace. -/
def jsTrim (cs : List Char) : List Char :=
  ((cs.dropWhile jsWhitespace).reverse.dropWhile jsWhitespace).reverse

/-- Embedding of `hashCategoryNameToSlug`: lowercase, strip characters outside
`[a-z0-9\s-]`, collapse whitespace runs to `-`, collapse `-` runs, trim.
(`Char.toLower` lowercases ASCII letters, which covers every registered
category name; the names in the registry are ASCII.) -/
def hashCategoryNameToSlug (categoryName : String) : String :=
  let lowered := categoryName.data.map Char.toLower
  let kept := lowered.filter
    (fun c => ('a' ≤ c && c ≤ 'z') || ('0' ≤ c && c ≤ '9') || jsWhitespace c || c = '-')
  let dashed := collapseRuns jsWhitespace '-' kept
  let collapsed := collapseRuns (fun c => c = '-') '-' dashed
  String.mk (jsTrim collapsed)

/-- Property keys that a plain `{}`-literal object inherits from
`Object.prototype`: the members required by ECMAScript plus the Annex B web
legacy accessors present in Node and every browser.  Reading any of them on an
object that has no own property of that name yields the inherited member — a
function (or, for `__proto__`, the prototype object), in every case a truthy
non-string value. -/
def objectPrototypeMemberNames : List String :=
  ["constructor", "hasOwnProperty", "isPrototypeOf", "propertyIsEnumerable",
   "toLocaleString", "toString", "valueOf", "__proto__",
   "__defineGetter__", "__defineSetter__", "__lookupGetter__", "__lookupSetter__"]

/-- Runtime result of `hashCategorySlugToName`.  The declared TypeScript
return type is `string`, but for a slug naming an inherited `Object.prototype`
member the function actually returns that member — a truthy non-string value
(`slugToCategoryMap[slug]` finds it on the prototype chain and `|| slug` never
fires).  `protoMember` records which member leaked; the member value itself
(a function or the prototype object) is opaque. -/
inductive SlugResult where
  | str : String → SlugResult
  | protoMember : String → SlugResult
deriving DecidableEq

/-- Models the assignment `obj[key] = value` on a plain object: it creates or
overwrites an own property, except that the key `__proto__` triggers the
inherited prototype setter and creates no own property.  (No registered
category slug is `__proto__`, so the guard never fires on the actual data.) -/
def jsSetOwn (m : List (String × String)) (key value : String) : List (String × String) :=
  if key = "__proto__" then m else m ++ [(key, value)]

/-- Embedding of `hashCategorySlugToName`: build the slug → category map over
`ALL_CATEGORY_TITLES` by plain-object assignment (later assignments overwrite
earlier ones, hence the lookup of the last matching binding), then model the
lookup `slugToCategoryMap[slug] || slug` with full plain-object semantics: an
own property if one was written (an empty string being falsy falls back to the
slug), otherwise — before `undefined` is reached — a member inherited from
`Object.prototype`, which is truthy and therefore returned as-is, and only
otherwise the slug unchanged. -/
def hashCategorySlugToName (slug : String) : SlugResult :=
  let slugToCategoryMap :=
    ALL_CATEGORY_TITLES.foldl (fun m c => jsSetOwn m (hashCategoryNameToSlug c) c) []
  match slugToCategoryMap.reverse.find? (fun p => p.1 = slug) with
  | some p => if p.2 = "" then SlugResult.str slug else SlugResult.str p.2
  | none =>
    if slug ∈ objectPrototypeMemberNames then SlugResult.protoMember slug
    else SlugResult.str slug

/-- Replace every non-hex character of a string by the digit `'0'`: the value
the generic Hamming metric effectively assigns such characters. -/
def normalizeNonHex (s : String) : String :=
  String.mk (s.data.map (fun c => if (hexDigitVal c).isSome then c else '0'))

end ILoveHash

namespace ILoveHash

/-!
Dispatch lemmas: how `compareSimilarityHashes` reduces on each literal
algorithm id.  These hold by computation of the string-equality tests.
-/

/-- Dispatch on the literal id `imatch` reaches the generic Hamming branch. -/
theorem dispatch_imatch (sdk : Sdk) (h1 h2 : String) :
    compareSimilarityHashes sdk "imatch" h1 h2 =
      some ⟨some (hammingDistance h1 h2), none⟩ := rfl

/-- Dispatch on the literal id `minhash` reaches `compareMinHash`. -/
theorem dispatch_minhash (sdk : Sdk) (h1 h2 : String) :
    compareSimilarityHashes sdk "minhash" h1 h2 = compareMinHash sdk h1 h2 := rfl

/-- Dispatch on the literal id `bbitminhash` reaches `compareMinHash`. -/
theorem dispatch_bbitminhash (sdk : Sdk) (h1 h2 : String) :
    compareSimilarityHashes sdk "bbitminhash" h1 h2 = compareMinHash sdk h1 h2 := rfl

/-- Dispatch on the literal id `superminhash` reaches `compareMinHash`. -/
theorem dispatch_superminhash (sdk : Sdk) (h1 h2 : String) :
    compareSimilarityHashes sdk "superminhash" h1 h2 = compareMinHash sdk h1 h2 := rfl

/-- When either input length is not a multiple of 8, the signature parse is
the defined failure `none`. -/
theorem parseMinHashSignature_eq_none (hex : String) (h : hex.length % 8 ≠ 0) :
    parseMinHashSignature hex = none := by
  unfold parseMinHashSignature
  simp [h]

/-- When either input length is not a multiple of 8, `compareMinHash` is the
defined failure `none`. -/
theorem compareMinHash_eq_none (sdk : Sdk) (hash1 hash2 : String)
    (hlen : hash1.length % 8 ≠ 0 ∨ hash2.length % 8 ≠ 0) :
    compareMinHash sdk hash1 hash2 = none := by
  unfold compareMinHash
  rcases hlen with hl | hl
  · rw [parseMinHashSignature_eq_none hash1 hl]
  · rw [parseMinHashSignature_eq_none hash2 hl]
    cases parseMinHashSignature hash1 <;> rfl

end ILoveHash

namespace ILoveHash

/-- Claim C1 (code behaviour at the failing input): for algorithm id `imatch`
and the unequal-length hex inputs `"ab"` and `"abcd"`, the comparator returns
the sentinel result `{ distance: -1 }` — it does not signal a
`LengthMismatch` error condition, contradicting the claim (which the spec
marks as the intended behaviour, calling the sentinel of the source a latent
defect). -/
theorem C1_imatch_length_mismatch_yields_sentinel (sdk : Sdk) :
    compareSimilarityHashes sdk "imatch" "ab" "abcd" = some ⟨some (-1), none⟩ := by
  rw [dispatch_imatch, show hammingDistance "ab" "abcd" = -1 from by decide]

/-- Claim C2: for the MinHash family ids, whenever either input length is not
a multiple of 8 hex characters the comparison returns the defined failure
signal `null` (`none`), never an uncaught fault and never a fabricated
similarity number — for every possible SDK Jaccard function. -/
theorem C2_minhash_bad_length_returns_none (sdk : Sdk) (alg hash1 hash2 : String)
    (halg : alg = "minhash" ∨ alg = "bbitminhash" ∨ alg = "superminhash")
    (hlen : hash1.length % 8 ≠ 0 ∨ hash2.length % 8 ≠ 0) :
    compareSimilarityHashes sdk alg hash1 hash2 = none := by
  have hcm := compareMinHash_eq_none sdk hash1 hash2 hlen
  rcases halg with rfl | rfl | rfl
  · rw [dispatch_minhash, hcm]
  · rw [dispatch_bbitminhash, hcm]
  · rw [dispatch_superminhash, hcm]

/-- Witness for C2 at a concrete input: `"ab"` has length 2, not a multiple
of 8, so the `minhash` comparison of `"ab"` against `"abcdefgh"` is `none`. -/
theorem C2_witness :
    compareSimilarityHashes trivialSdk "minhash" "ab" "abcdefgh" = none :=
  C2_minhash_bad_length_returns_none trivialSdk "minhash" "ab" "abcdefgh"
    (Or.inl rfl) (Or.inl (by decide))

/-- Claim C3: for every raw correlation score `s` delivered by the underlying
SDK correlation function, `compareNilsimsa` returns
`similarity = (s + 128) / 256` and `distance = 128 - s`; instantiating the
score function at the constants `128`, `-128` and `0` realises the three
required particular mappings `(1, 0)`, `(0, 256)` and `(1/2, 128)`. -/
theorem C3_nilsimsa_normalization (sdk : Sdk) (hash1 hash2 : String) :
    compareNilsimsa sdk hash1 hash2 =
      ⟨some (128 - sdk.nilsimsaCompare hash1 hash2),
       some (((sdk.nilsimsaCompare hash1 hash2 : ℚ) + 128) / 256)⟩ ∧
    compareNilsimsa (constNilsimsaSdk 128) hash1 hash2 = ⟨some 0, some 1⟩ ∧
    compareNilsimsa (constNilsimsaSdk (-128)) hash1 hash2 = ⟨some 256, some 0⟩ ∧
    compareNilsimsa (constNilsimsaSdk 0) hash1 hash2 = ⟨some 128, some (1 / 2)⟩ := by
  refine ⟨rfl, ?_, ?_, ?_⟩ <;> simp [compareNilsimsa, constNilsimsaSdk] <;> norm_num

/-- Claim C4: every algorithm id outside the six-entry dispatch table reaches
the generic Hamming fallback and produces `{ distance }` — never an
unknown-algorithm error. -/
theorem C4_unknown_id_generic_fallback (sdk : Sdk) (alg hash1 hash2 : String)
    (h : alg ∉ (["simhash", "minhash", "bbitminhash", "superminhash",
      "nilsimsa", "imatch"] : List String)) :
    compareSimilarityHashes sdk alg hash1 hash2 =
      some ⟨some (hammingDistance hash1 hash2), none⟩ := by
  simp only [List.mem_cons, List.mem_singleton, not_or] at h
  obtain ⟨h₁, h₂, h₃, h₄, h₅, h₆⟩ := h
  simp [compareSimilarityHashes, h₁, h₂, h₃, h₄, h₅, h₆]

/-- Witness for C4 at a concrete input: `sha256` is not in the dispatch
table, and the comparator degrades to the generic Hamming metric. -/
theorem C4_witness :
    compareSimilarityHashes trivialSdk "sha256" "ab" "cd" =
      some ⟨some (hammingDistance "ab" "cd"), none⟩ :=
  C4_unknown_id_generic_fallback trivialSdk "sha256" "ab" "cd" (by decide)

end ILoveHash

namespace ILoveHash

set_option maxRecDepth 4000 in
/-- Claim C5: the slug round-trip holds for every category name registered in
the catalog. -/
theorem C5_category_slug_round_trip (c : String) (h : c ∈ ALL_CATEGORY_TITLES) :
    hashCategorySlugToName (hashCategoryNameToSlug c) = SlugResult.str c := by
  have H : ∀ x ∈ ALL_CATEGORY_TITLES,
      hashCategorySlugToName (hashCategoryNameToSlug x) = SlugResult.str x := by decide
  exact H c h

set_option maxRecDepth 4000 in
/-- Witness for C5 at a concrete registered category. -/
theorem C5_witness :
    hashCategorySlugToName (hashCategoryNameToSlug "Non-cryptographic") =
      SlugResult.str "Non-cryptographic" :=
  C5_category_slug_round_trip "Non-cryptographic" (by decide)

/-- Claim C6: on equal-length inputs the generic Hamming distance is
symmetric. -/
theorem C6_hamming_symmetric (hex1 hex2 : String) (h : hex1.length = hex2.length) :
    hammingDistance hex1 hex2 = hammingDistance hex2 hex1 := by
  unfold hammingDistance
  rw [h]
  rcases eq_or_ne hex2.length hex2.length with _ | hne
  · rw [if_neg (fun hc => hc rfl), if_neg (fun hc => hc rfl)]
    have hfun : (fun (d : Nat) (i : Nat) =>
        d + popcount4 (nibbleVal (jsCharAt hex1 i) ^^^ nibbleVal (jsCharAt hex2 i))) =
        fun (d : Nat) (i : Nat) =>
        d + popcount4 (nibbleVal (jsCharAt hex2 i) ^^^ nibbleVal (jsCharAt hex1 i)) := by
      funext d i
      rw [Nat.xor_comm]
    rw [hfun]
  · exact absurd rfl hne

/-- Witness for C6 at concrete equal-length inputs. -/
theorem C6_witness : hammingDistance "ab" "ba" = hammingDistance "ba" "ab" :=
  C6_hamming_symmetric "ab" "ba" (by decide)

/-- Claim C7: every successful result of the comparator carries at least one
of the `distance` and `similarity` fields; a doubly-absent record is never
returned on success. -/
theorem C7_success_has_a_field (sdk : Sdk) (alg hash1 hash2 : String)
    (r : ComparisonResult) (h : compareSimilarityHashes sdk alg hash1 hash2 = some r) :
    r.distance.isSome = true ∨ r.similarity.isSome = true := by
  unfold compareSimilarityHashes at h
  split at h
  · cases h; left; rfl
  · split at h
    · unfold compareMinHash at h
      split at h
      · cases h; right; rfl
      · exact absurd h (by simp)
    · split at h
      · cases h; left; rfl
      · split at h
        · cases h; left; rfl
        · cases h; left; rfl

/-- Witness for C7 at a concrete input: the `imatch` comparison of `"ab"`
against `"cd"` succeeds with the distance field present. -/
theorem C7_witness :
    (⟨some 4, none⟩ : ComparisonResult).distance.isSome = true ∨
    (⟨some 4, none⟩ : ComparisonResult).similarity.isSome = true :=
  C7_success_has_a_field trivialSdk "imatch" "ab" "cd" ⟨some 4, none⟩ (by decide)

end ILoveHash

namespace ILoveHash

/-- Replacing non-hex characters by the zero digit changes no length. -/
theorem length_normalizeNonHex (s : String) : (normalizeNonHex s).length = s.length := by
  rw [show (normalizeNonHex s).length
      = (s.data.map fun c => if (hexDigitVal c).isSome then c else '0').length from rfl]
  rw [List.length_map]
  rfl

/-- The nibble value read at any position is unchanged by replacing non-hex
characters with the zero digit: both yield `0` exactly where the character is
not a hex digit. -/
theorem nibbleVal_normalizeNonHex (s : String) (i : Nat) :
    nibbleVal (jsCharAt (normalizeNonHex s) i) = nibbleVal (jsCharAt s i) := by
  unfold jsCharAt normalizeNonHex
  rw [show (String.mk (s.data.map fun c => if (hexDigitVal c).isSome then c else '0')).data
      = s.data.map fun c => if (hexDigitVal c).isSome then c else '0' from rfl]
  rw [List.get?_map]
  cases hc : s.data.get? i with
  | none => rfl
  | some c =>
    simp only [Option.map_some', Option.getD_some]
    by_cases h : (hexDigitVal c).isSome
    · rw [if_pos h]
    · rw [if_neg h]
      have h0 : hexDigitVal c = none := Option.not_isSome_iff_eq_none.mp h
      rw [nibbleVal, nibbleVal, h0]
      rfl

/-- Counterexample to claim C8: the input `"gg"` contains the non-hex
character `g`, yet the comparator on the generic fallback does not fail — it
returns the numeric result `{ distance: 0 }` against `"00"`, the same score
two identical valid hashes would get. -/
theorem C8_counterexample :
    compareSimilarityHashes trivialSdk "imatch" "gg" "00" = some ⟨some 0, none⟩ ∧
    ("gg" : String) ≠ "00" := by
  constructor
  · rw [dispatch_imatch, show hammingDistance "gg" "00" = 0 from by decide]
  · decide

/-- Claim C8 as amended: non-hex characters in a metric requiring hex parsing
are not rejected; the generic Hamming fallback silently values every non-hex
character as the nibble `0` (JavaScript `parseInt` yields `NaN`, which the
bitwise XOR coerces to `0`), so the distance is that of the input with every
non-hex character replaced by the zero digit, and a numeric result — not a
failure signal — is produced. -/
theorem C8_amended_nonhex_valued_zero (hex1 hex2 : String) :
    hammingDistance (normalizeNonHex hex1) (normalizeNonHex hex2) =
      hammingDistance hex1 hex2 := by
  unfold hammingDistance
  rw [length_normalizeNonHex, length_normalizeNonHex]
  by_cases h : hex1.length = hex2.length
  · rw [if_neg (fun hc => hc h), if_neg (fun hc => hc h)]
    have hfun : (fun (d : Nat) (i : Nat) =>
        d + popcount4 (nibbleVal (jsCharAt (normalizeNonHex hex1) i) ^^^
          nibbleVal (jsCharAt (normalizeNonHex hex2) i))) =
        fun (d : Nat) (i : Nat) =>
        d + popcount4 (nibbleVal (jsCharAt hex1 i) ^^^ nibbleVal (jsCharAt hex2 i)) := by
      funext d i
      rw [nibbleVal_normalizeNonHex, nibbleVal_normalizeNonHex]
    rw [hfun]
  · rw [if_pos h, if_pos h]

/-- Claim C9: in the registry, `supportsComparison` is set only on
`Similarity`-category descriptors, and the hundred descriptor ids are
pairwise distinct. -/
theorem C9_registry_invariants :
    (∀ e ∈ HASH_ALGORITHMS, e.supportsComparison = true → e.category = "Similarity") ∧
    (HASH_ALGORITHMS.map AlgEntry.id).Nodup := by
  constructor
  · decide
  · decide

set_option maxRecDepth 4000 in
/-- The lenient fallback does hold away from the trap: a slug that is the
slug of no registered category and names no `Object.prototype` member is
returned unchanged (the lookup reaches `undefined`, which is falsy). -/
theorem unknown_nonproto_slug_identity (slug : String)
    (h : ∀ c ∈ ALL_CATEGORY_TITLES, hashCategoryNameToSlug c ≠ slug)
    (hp : slug ∉ objectPrototypeMemberNames) :
    hashCategorySlugToName slug = SlugResult.str slug := by
  unfold hashCategorySlugToName
  have hmap : ALL_CATEGORY_TITLES.foldl
        (fun m c => jsSetOwn m (hashCategoryNameToSlug c) c) []
      = ALL_CATEGORY_TITLES.map fun c => (hashCategoryNameToSlug c, c) := by decide
  rw [hmap]
  have hfind : (ALL_CATEGORY_TITLES.map fun c => (hashCategoryNameToSlug c, c)).reverse.find?
      (fun p => p.1 = slug) = none := by
    rw [List.find?_eq_none]
    intro p hp'
    simp only [List.mem_reverse, List.mem_map] at hp'
    obtain ⟨c, hc, rfl⟩ := hp'
    simpa using h c hc
  simp only [hfind]
  rw [if_neg hp]

set_option maxRecDepth 4000 in
/-- Claim C10 (code behaviour at the failing input): the slug `constructor`
is the slug of no registered category, yet `hashCategorySlugToName` does not
return it unchanged: the lookup on the plain `{}` object finds the inherited,
truthy `Object.prototype.constructor`, `|| slug` never fires, and the
function returns that non-string member — contradicting both the claim and
its own declared `string` return type.  At the concrete instance the claim
names, `not-a-real-slug`, the lookup reaches `undefined` and the slug is
returned unchanged. -/
theorem C10_proto_member_slug_leaks_inherited_value :
    hashCategorySlugToName "not-a-real-slug" = SlugResult.str "not-a-real-slug" ∧
    (∀ c ∈ ALL_CATEGORY_TITLES, hashCategoryNameToSlug c ≠ "constructor") ∧
    hashCategorySlugToName "constructor" = SlugResult.protoMember "constructor" ∧
    hashCategorySlugToName "constructor" ≠ SlugResult.str "constructor" := by
  refine ⟨by decide, by decide, by decide, by decide⟩

end ILoveHash
